import Mathlib

/-!
Verification of the GovBot chat client core (src/screens/ChatBotUi/ChatBotUi.tsx):
the session store (creation, rename, two-phase delete, localStorage persistence)
and the action gate (the isSimpleChat heuristic classifier).

JavaScript strings are modelled as Lean strings (one Lean Char per code point),
JavaScript Date values as milliseconds since the epoch (Nat), and the regular
expressions of the source as explicit character-level functions with the same
semantics (anchored prefix alternation with a word-boundary check, and the
dot-does-not-match-line-terminators rule of an un-flagged JS regex).
-/

namespace GovBot

/-- Word characters in the sense of the JS regex class backslash-w. -/
def isWordChar (c : Char) : Bool :=
  (('a' ≤ c) && (c ≤ 'z')) || (('A' ≤ c) && (c ≤ 'Z')) || (('0' ≤ c) && (c ≤ '9')) || (c == '_')

/-- Line terminators, which the un-flagged JS regex dot does not match. -/
def isLineTerminator (c : Char) : Bool :=
  (c == '\n') || (c == '\r') || (c == Char.ofNat 0x2028) || (c == Char.ofNat 0x2029)

/-- Whitespace removed by JS String.prototype.trim. -/
def jsWhitespaceChar (c : Char) : Bool :=
  (c == ' ') || (c == '\t') || (c == '\n') || (c == '\r') ||
  (c == Char.ofNat 11) || (c == Char.ofNat 12) || (c == Char.ofNat 160) ||
  (c == Char.ofNat 0xfeff) || (c == Char.ofNat 0x2028) || (c == Char.ofNat 0x2029)

/-- JS String.prototype.trim. -/
def jsTrim (s : String) : String :=
  String.mk (((s.toList.dropWhile jsWhitespaceChar).reverse.dropWhile jsWhitespaceChar).reverse)

/-- JS String.prototype.toLowerCase (ASCII case mapping suffices for this code). -/
def jsToLower (s : String) : String :=
  String.mk (s.toList.map Char.toLower)

/-- Substring occurrence on character lists (JS String.prototype.includes). -/
def containsFrom (hay pat : List Char) : Bool :=
  match hay with
  | [] => pat.isEmpty
  | _ :: t => pat.isPrefixOf hay || containsFrom t pat

/-- JS String.prototype.includes. -/
def strContains (s pat : String) : Bool :=
  containsFrom s.toList pat.toList

/-- JS Array.prototype.slice with a negative index: the last n elements. -/
def lastN (n : Nat) (l : List α) : List α :=
  l.drop (l.length - n)

/-- JS String.prototype.replace with a string pattern: first occurrence only.
Specialised to a single-character pattern, which is all the source uses. -/
def replaceFirstChar : List Char → Char → Char → List Char
  | [], _, _ => []
  | c :: cs, pat, rep => if c == pat then rep :: cs else c :: replaceFirstChar cs pat rep

/-- The action name with its first underscore replaced by a space
(JS: action.replace(underscore, space)). -/
def normalizeAction (action : String) : String :=
  String.mk (replaceFirstChar action.toList '_' ' ')

/-- Decimal string for Date.now().toString(). -/
def natToString (n : Nat) : String :=
  toString n

/-- Message roles (the source's union type of two string literals). -/
inductive Role
  | user
  | assistant
deriving DecidableEq

/-- A citation attached to an assistant message (ChatMessage.sources element). -/
structure Citation where
  id : String
  title : String
  url : String
  snippet : String
deriving DecidableEq

/-- ChatMessage from src/lib/gemini.ts, with timestamps as epoch milliseconds. -/
structure ChatMessage where
  id : String
  role : Role
  content : String
  timestamp : Nat
  sources : Option (List Citation)
deriving DecidableEq

/-- ChatSession from ChatBotUi.tsx. -/
structure ChatSession where
  id : String
  title : String
  messages : List ChatMessage
  createdAt : Nat
deriving DecidableEq

/-! ## The Action Gate: isSimpleChat and its data -/

/-- The alternatives of the first simple-pattern regex (greetings). -/
def greetingAlternatives : List String :=
  ["hi", "hello", "hey", "good morning", "good afternoon", "good evening"]

/-- The alternatives of the second simple-pattern regex (casual questions). -/
def casualQuestionAlternatives : List String :=
  ["how are you", "what\x27s up", "what are you", "who are you"]

/-- The alternatives of the third simple-pattern regex (acknowledgments). -/
def acknowledgmentAlternatives : List String :=
  ["thanks", "thank you", "ok", "okay", "yes", "no"]

/-- The governmentKeywords array of the source, verbatim. -/
def governmentKeywords : List String :=
  ["government", "policy", "service", "department", "ministry", "public",
   "citizen", "administration", "regulation", "law", "budget", "project",
   "initiative", "reform", "development", "infrastructure", "governance",
   "flood", "disaster", "emergency", "monsoon", "pdma", "contingency",
   "preparedness", "response", "management", "kp", "khyber pakhtunkhwa",
   "chief secretary", "deputy commissioner", "district", "provincial",
   "planning", "coordination", "safety", "vulnerability", "assessment",
   "mitigation", "relief", "rehabilitation", "damage", "report", "advisory"]

/-- An anchored alternation followed by a word boundary: the regex
caret-group-alternatives-backslash-b applied to s (with backtracking, the
regex matches exactly when some alternative is a prefix of s whose next
character, if any, is not a word character; every alternative ends in a word
character, so the boundary test is exactly that). -/
def matchesBounded (alt : String) (s : String) : Bool :=
  alt.toList.isPrefixOf s.toList &&
    (match s.toList.drop alt.toList.length with
     | [] => true
     | c :: _ => !(isWordChar c))

/-- The fourth simple-pattern regex: caret-dot-1-20-dollar. The un-flagged JS
dot does not match line terminators, so the regex accepts exactly the strings
of 1 to 20 characters none of which is a line terminator. -/
def shortMessageTest (t : String) : Bool :=
  decide (1 ≤ t.toList.length) && decide (t.toList.length ≤ 20) &&
    t.toList.all (fun c => !(isLineTerminator c))

/-- One simplePatterns.some(...) test of the source, applied to a lowercased
message, trimming inside exactly as pattern.test(msg.trim()) does. -/
def simplePatternTest (t : String) : Bool :=
  greetingAlternatives.any (fun a => matchesBounded a t) ||
  casualQuestionAlternatives.any (fun a => matchesBounded a t) ||
  acknowledgmentAlternatives.any (fun a => matchesBounded a t) ||
  shortMessageTest t

/-- hasSimpleContent of the source over the selected lowercased user texts. -/
def hasSimpleContent (texts : List String) : Bool :=
  texts.any (fun msg => simplePatternTest (jsTrim msg))

/-- hasGovernmentContent of the source over the selected lowercased user texts. -/
def hasGovernmentContent (texts : List String) : Bool :=
  texts.any (fun msg => governmentKeywords.any (fun k => strContains msg k))

/-- isDetailedRequest of the source: the selected lowercased user texts are
joined with a space and searched for six fixed substrings. -/
def isDetailedRequest (texts : List String) : Bool :=
  let userConversationText := String.intercalate (" ") texts
  strContains userConversationText ("detail") ||
  strContains userConversationText ("complete") ||
  strContains userConversationText ("comprehensive") ||
  strContains userConversationText ("analysis") ||
  strContains userConversationText ("insight") ||
  strContains userConversationText ("report")

/-- isSimpleChat from handleActionResponse: true means the context is too
simple (insufficient) for a detailed analysis. -/
def isSimpleChat (messages : List ChatMessage) : Bool :=
  if messages.length == 0 then true
  else
    let userMessages := messages.filter (fun m => m.role == Role.user)
    let recentUserMessages := lastN 3 userMessages
    let userMessageTexts := recentUserMessages.map (fun m => jsToLower m.content)
    hasSimpleContent userMessageTexts &&
      !(hasGovernmentContent userMessageTexts) &&
      !(isDetailedRequest userMessageTexts)

/-! ## The Session Store: component state and handlers -/

/-- The React state of ChatBotUi (the fields the handlers read or write). -/
structure UiState where
  messages : List ChatMessage
  inputValue : String
  isLoading : Bool
  chatSessions : List ChatSession
  currentSessionId : Option String
  editingSessionId : Option String
  editingTitle : String
  deleteDialogOpen : Bool
  sessionToDelete : Option String
deriving DecidableEq

/-- JS truthiness of a nullable string (null and the empty string are falsy). -/
def optStringTruthy : Option String → Bool
  | some s => s != ""
  | none => false

/-- The effective text of handleSendMessage: messageText or inputValue.trim(),
with the JS or-else treating an empty messageText as absent. -/
def effectiveText (mt : Option String) (st : UiState) : String :=
  match mt with
  | some s => if s == "" then jsTrim st.inputValue else s
  | none => jsTrim st.inputValue

/-- The synchronous part of handleSendMessage, at Date.now() = now: the guard,
lazy session creation, the user-message append, and the busy flag. -/
def handleSendMessageStart (now : Nat) (mt : Option String) (st : UiState) : UiState :=
  let text := effectiveText mt st
  if (text == "") || st.isLoading then st
  else
    let st1 :=
      if st.currentSessionId.isNone then
        { st with
          chatSessions :=
            { id := natToString now,
              title := String.mk (text.toList.take 30) ++
                (if 30 < text.toList.length then "..." else ""),
              messages := [],
              createdAt := now } :: st.chatSessions,
          currentSessionId := some (natToString now) }
      else st
    { st1 with
      messages := st1.messages ++
        [{ id := natToString now, role := Role.user, content := text,
           timestamp := now, sources := none }],
      inputValue := "",
      isLoading := true }

/-- Resolution of the remote chat call in handleSendMessage (success branch),
at Date.now() = now: the assistant reply is appended with id now + 1. -/
def handleSendMessageSuccess (now : Nat) (answer : String)
    (sources : Option (List Citation)) (st : UiState) : UiState :=
  { st with
    messages := st.messages ++
      [{ id := natToString (now + 1), role := Role.assistant, content := answer,
         timestamp := now, sources := sources }],
    isLoading := false }

/-- The fixed apology of the chat-call catch branch. -/
def chatApology : String :=
  "I apologize for the technical difficulty. Please try again."

/-- Resolution of the remote chat call in handleSendMessage (failure branch). -/
def handleSendMessageFailure (now : Nat) (st : UiState) : UiState :=
  { st with
    messages := st.messages ++
      [{ id := natToString (now + 1), role := Role.assistant, content := chatApology,
         timestamp := now, sources := none }],
    isLoading := false }

/-- The useEffect on [messages, currentSessionId] that copies the displayed
message list into the active session's entry in the collection. -/
def reflectMessages (st : UiState) : UiState :=
  if optStringTruthy st.currentSessionId && decide (0 < st.messages.length) then
    { st with
      chatSessions := st.chatSessions.map (fun session =>
        if some session.id == st.currentSessionId then
          { session with messages := st.messages }
        else session) }
  else st

/-- handleDeleteSession: the request phase of the two-phase delete. -/
def handleDeleteSession (sessionId : String) (st : UiState) : UiState :=
  { st with sessionToDelete := some sessionId, deleteDialogOpen := true }

/-- confirmDeleteSession: the confirm phase of the two-phase delete. -/
def confirmDeleteSession (st : UiState) : UiState :=
  if optStringTruthy st.sessionToDelete then
    let sid := st.sessionToDelete.getD ("")
    let st1 := { st with chatSessions := st.chatSessions.filter (fun session => session.id != sid) }
    let st2 :=
      if st.currentSessionId == st.sessionToDelete then
        { st1 with messages := [], currentSessionId := none }
      else st1
    { st2 with deleteDialogOpen := false, sessionToDelete := none }
  else st

/-- handleSaveEdit: commit a pending rename if the edited title trims nonempty. -/
def handleSaveEdit (sessionId : String) (st : UiState) : UiState :=
  let st1 :=
    if jsTrim st.editingTitle != "" then
      { st with
        chatSessions := st.chatSessions.map (fun session =>
          if session.id == sessionId then
            { session with title := jsTrim st.editingTitle }
          else session) }
    else st
  { st1 with editingSessionId := none, editingTitle := "" }

/-- handleReturnHome / the New Chat button: back to the home state. -/
def handleReturnHome (st : UiState) : UiState :=
  { st with messages := [], currentSessionId := none }

/-! ## handleActionResponse and the insufficient-context template -/

/-- The fixed insufficient-context template of handleActionResponse, naming the
action with its underscore replaced by a space. -/
def insufficientContent (action : String) : String :=
  "I don\x27t have enough specific government or policy-related information in our conversation to provide a meaningful "
  ++ normalizeAction action
  ++ " analysis. Please share more details about a specific government service, policy, or initiative you\x27d like me to analyze, and I\x27ll be happy to help with a detailed "
  ++ normalizeAction action ++ "."

/-- The fixed apology of the action-call catch branch. -/
def actionApology : String :=
  "I apologize for the technical difficulty with the specialized analysis. Please try again."

/-- The request sent to the remote action endpoint when the gate passes. -/
structure ActionRequest where
  action : String
  query : String
  context : String
deriving DecidableEq

/-- handleActionResponse at Date.now() = now: either the local
insufficient-context message (no remote request), or the remote call whose
result (or failure apology) is appended; the second component records the
request made to the remote endpoint, if any. -/
def handleActionResponse (now : Nat) (action originalMessage : String)
    (remote : Except Unit String) (st : UiState) : UiState × Option ActionRequest :=
  if isSimpleChat st.messages then
    ({ st with
       messages := st.messages ++
         [{ id := natToString now, role := Role.assistant,
            content := insufficientContent action, timestamp := now, sources := none }],
       isLoading := false },
     none)
  else
    let request : ActionRequest :=
      { action := action, query := originalMessage,
        context := String.intercalate ("\n") (st.messages.map (fun m => m.content)) }
    match remote with
    | Except.ok result =>
      ({ st with
         messages := st.messages ++
           [{ id := natToString now, role := Role.assistant,
              content := result, timestamp := now, sources := none }],
         isLoading := false },
       some request)
    | Except.error _ =>
      ({ st with
         messages := st.messages ++
           [{ id := natToString now, role := Role.assistant,
              content := actionApology, timestamp := now, sources := none }],
         isLoading := false },
       some request)

/-! ## Persistence: JSON.stringify / JSON.parse of the session collection

JSON.stringify serializes a Date through Date.prototype.toJSON, producing the
ISO-8601 string toISOString; the load effect reconstructs instants with
new Date(string). The calendar arithmetic is the standard civil-from-days /
days-from-civil pair on the proleptic Gregorian calendar, which is what
ECMAScript specifies for dates in the four-digit-year range. -/

/-- The decimal digit character of n mod 10. -/
def dig (n : Nat) : Char :=
  Char.ofNat (48 + n % 10)

/-- The numeric value of a decimal digit character. -/
def digVal (c : Char) : Nat :=
  c.toNat - 48

/-- Day-of-era within the 146097-day Gregorian era of the day count
(days since 1970-01-01, shifted to the era origin 0000-03-01). -/
def civilDoe (days : Nat) : Nat :=
  (days + 719468) % 146097

/-- Era index (count of complete 146097-day Gregorian eras). -/
def civilEra (days : Nat) : Nat :=
  (days + 719468) / 146097

/-- Year-of-era of the day count. -/
def civilYoe (days : Nat) : Nat :=
  (civilDoe days - civilDoe days / 1460 + civilDoe days / 36524 - civilDoe days / 146096) / 365

/-- Day-of-year (March-based) of the day count. -/
def civilDoy (days : Nat) : Nat :=
  civilDoe days - (365 * civilYoe days + civilYoe days / 4 - civilYoe days / 100)

/-- March-based month index 0..11 of the day count. -/
def civilMp (days : Nat) : Nat :=
  (5 * civilDoy days + 2) / 153

/-- Civil month 1..12 of the day count. -/
def civilMonth (days : Nat) : Nat :=
  if civilMp days < 10 then civilMp days + 3 else civilMp days - 9

/-- Civil day-of-month 1..31 of the day count. -/
def civilDay (days : Nat) : Nat :=
  civilDoy days - (153 * civilMp days + 2) / 5 + 1

/-- Civil year of the day count. -/
def civilYear (days : Nat) : Nat :=
  if civilMonth days ≤ 2 then civilYoe days + civilEra days * 400 + 1
  else civilYoe days + civilEra days * 400

/-- Days since 1970-01-01 of a civil date on or after 1970-01-01. -/
def daysFromCivil (y m d : Nat) : Nat :=
  let y1 := if m ≤ 2 then y - 1 else y
  let era := y1 / 400
  let yoe := y1 - era * 400
  let doy := (153 * (if 2 < m then m - 3 else m + 9) + 2) / 5 + d - 1
  let doe := yoe * 365 + yoe / 4 - yoe / 100 + doy
  era * 146097 + doe - 719468

/-- Date.prototype.toISOString of an instant t (epoch milliseconds), for the
four-digit-year range. -/
def toISOString (t : Nat) : String :=
  let days := t / 86400000
  let y := civilYear days
  let mo := civilMonth days
  let d := civilDay days
  let rem := t % 86400000
  String.mk
    [dig (y / 1000), dig (y / 100), dig (y / 10), dig y, '-',
     dig (mo / 10), dig mo, '-', dig (d / 10), dig d, 'T',
     dig (rem / 3600000 / 10), dig (rem / 3600000), ':',
     dig (rem / 60000 % 60 / 10), dig (rem / 60000 % 60), ':',
     dig (rem / 1000 % 60 / 10), dig (rem / 1000 % 60), '.',
     dig (rem % 1000 / 100), dig (rem % 1000 / 10), dig (rem % 1000), 'Z']

/-- The parser core of new Date(string) on the serialized ISO format. -/
def parseISOChars : List Char → Nat
  | [y3, y2, y1, y0, _, mo1, mo0, _, d1, d0, _, h1, h0, _, mi1, mi0, _, s1, s0, _, ms2, ms1, ms0, _] =>
    daysFromCivil
        (digVal y3 * 1000 + digVal y2 * 100 + digVal y1 * 10 + digVal y0)
        (digVal mo1 * 10 + digVal mo0)
        (digVal d1 * 10 + digVal d0) * 86400000 +
      (digVal h1 * 10 + digVal h0) * 3600000 +
      (digVal mi1 * 10 + digVal mi0) * 60000 +
      (digVal s1 * 10 + digVal s0) * 1000 +
      (digVal ms2 * 100 + digVal ms1 * 10 + digVal ms0)
  | _ => 0

/-- new Date(string) on a serialized timestamp. -/
def parseISO (s : String) : Nat :=
  parseISOChars s.toList

/-- The role field as serialized to JSON ("user" / "assistant"). -/
def roleToString : Role → String
  | Role.user => "user"
  | Role.assistant => "assistant"

/-- The role field as read back from JSON. -/
def roleOfString (s : String) : Role :=
  if s == "user" then Role.user else Role.assistant

/-- A ChatMessage as it appears inside the JSON text under the storage key:
the timestamp has become its ISO string, everything else is unchanged
(JSON round-trips strings and arrays of strings exactly). -/
structure StoredMessage where
  id : String
  role : String
  content : String
  timestamp : String
  sources : Option (List Citation)
deriving DecidableEq

/-- A ChatSession as it appears inside the JSON text under the storage key. -/
structure StoredSession where
  id : String
  title : String
  messages : List StoredMessage
  createdAt : String
deriving DecidableEq

/-- JSON.stringify of one message (Date.toJSON on the timestamp). -/
def serializeMessage (m : ChatMessage) : StoredMessage :=
  { id := m.id, role := roleToString m.role, content := m.content,
    timestamp := toISOString m.timestamp, sources := m.sources }

/-- JSON.stringify of one session. -/
def serializeSession (s : ChatSession) : StoredSession :=
  { id := s.id, title := s.title,
    messages := s.messages.map serializeMessage,
    createdAt := toISOString s.createdAt }

/-- JSON.stringify of the whole collection, as written under the key. -/
def serializeSessions (sessions : List ChatSession) : List StoredSession :=
  sessions.map serializeSession

/-- The load effect's per-message reconstruction: the spread keeps every field
and replaces timestamp by new Date(msg.timestamp). -/
def deserializeMessage (m : StoredMessage) : ChatMessage :=
  { id := m.id, role := roleOfString m.role, content := m.content,
    timestamp := parseISO m.timestamp, sources := m.sources }

/-- The load effect's per-session reconstruction. -/
def deserializeSession (s : StoredSession) : ChatSession :=
  { id := s.id, title := s.title,
    messages := s.messages.map deserializeMessage,
    createdAt := parseISO s.createdAt }

/-- The load effect's reconstruction of the whole collection. -/
def deserializeSessions (sessions : List StoredSession) : List ChatSession :=
  sessions.map deserializeSession

/-- The save effect on [chatSessions]: localStorage.setItem is executed only
when the collection is nonempty; otherwise the stored value is left as it was. -/
def saveEffect (sessions : List ChatSession) (storage : Option (List StoredSession)) :
    Option (List StoredSession) :=
  if 0 < sessions.length then some (serializeSessions sessions) else storage

/-! ## Claim-side predicates (the Action Gate as the specification words it) -/

/-- The gate's selection, as the claim describes it: the last three
user-role messages of the history. -/
def specSelectedUsers (msgs : List ChatMessage) : List ChatMessage :=
  lastN 3 (msgs.filter (fun m => m.role == Role.user))

/-- The greeting / casual-question / acknowledgment prefix patterns of the
gate (the first three simplePatterns regexes) as a single test. -/
def matchesGreetingPattern (t : String) : Bool :=
  greetingAlternatives.any (fun a => matchesBounded a t) ||
  casualQuestionAlternatives.any (fun a => matchesBounded a t) ||
  acknowledgmentAlternatives.any (fun a => matchesBounded a t)

/-- The concatenation of the selected user messages (lowercased, joined with
spaces) that the detail test searches. -/
def specJoinedText (msgs : List ChatMessage) : String :=
  String.intercalate (" ") ((specSelectedUsers msgs).map (fun m => jsToLower m.content))

/-- Claim C2's hasSimpleContent, following the claim wording: some selected
user message (lowercased) matches a greeting/acknowledgment prefix pattern,
or its trimmed text is 1 to 20 characters. -/
def SpecSimpleClaim (msgs : List ChatMessage) : Prop :=
  ∃ m ∈ specSelectedUsers msgs,
    matchesGreetingPattern (jsTrim (jsToLower m.content)) = true ∨
    (1 ≤ (jsTrim (jsToLower m.content)).toList.length ∧
      (jsTrim (jsToLower m.content)).toList.length ≤ 20)

/-- SpecSimpleClaim as the counterexample forces it to be amended: the
1-to-20-character disjunct additionally requires that no character is a line
terminator, because the JS regex dot does not match those. -/
def SpecSimpleAmended (msgs : List ChatMessage) : Prop :=
  ∃ m ∈ specSelectedUsers msgs,
    matchesGreetingPattern (jsTrim (jsToLower m.content)) = true ∨
    (1 ≤ (jsTrim (jsToLower m.content)).toList.length ∧
      (jsTrim (jsToLower m.content)).toList.length ≤ 20 ∧
      ∀ c ∈ (jsTrim (jsToLower m.content)).toList, isLineTerminator c = false)

/-- Claim C2's hasGovernmentContent: some selected user message contains a
domain keyword as a case-insensitive substring. -/
def SpecGovernmentClaim (msgs : List ChatMessage) : Prop :=
  ∃ m ∈ specSelectedUsers msgs, ∃ k ∈ governmentKeywords,
    strContains (jsToLower m.content) k = true

/-- Claim C2's isDetailedRequest: the concatenation of the selected user
messages contains one of the six detail words. -/
def SpecDetailClaim (msgs : List ChatMessage) : Prop :=
  strContains (specJoinedText msgs) ("detail") = true ∨
  strContains (specJoinedText msgs) ("complete") = true ∨
  strContains (specJoinedText msgs) ("comprehensive") = true ∨
  strContains (specJoinedText msgs) ("analysis") = true ∨
  strContains (specJoinedText msgs) ("insight") = true ∨
  strContains (specJoinedText msgs) ("report") = true

/-- Claim C2's insufficiency characterization, exactly as the claim states it. -/
def SpecInsufficient (msgs : List ChatMessage) : Prop :=
  msgs = [] ∨ (SpecSimpleClaim msgs ∧ ¬ SpecGovernmentClaim msgs ∧ ¬ SpecDetailClaim msgs)

/-- Claim C2's insufficiency characterization with the amended
hasSimpleContent component. -/
def SpecInsufficientAmended (msgs : List ChatMessage) : Prop :=
  msgs = [] ∨ (SpecSimpleAmended msgs ∧ ¬ SpecGovernmentClaim msgs ∧ ¬ SpecDetailClaim msgs)

/-! ## Concrete states used by the counterexamples and witnesses -/

/-- A history whose only message is a user message with an internal newline
(trimmed length 5, so the claim counts it as simple; the regex does not). -/
def c2Example : List ChatMessage :=
  [{ id := "1", role := Role.user, content := "aa\nbb", timestamp := 0, sources := none }]

/-- A single stored session about to be deleted. -/
def c1Session : ChatSession :=
  { id := "1725000000000", title := "Flood contingency planning",
    messages := [{ id := "1725000000000", role := Role.user,
                   content := "Flood plan?", timestamp := 1725000000000, sources := none }],
    createdAt := 1725000000000 }

/-- The component state in which c1Session is the only session, it is active,
and its deletion has been requested and the dialog confirmed. -/
def c1State : UiState :=
  { messages := c1Session.messages, inputValue := "", isLoading := false,
    chatSessions := [c1Session], currentSessionId := some "1725000000000",
    editingSessionId := none, editingTitle := "", deleteDialogOpen := true,
    sessionToDelete := some "1725000000000" }

/-- A fresh component state with a typed first message. -/
def c4Start : UiState :=
  { messages := [], inputValue := "Tell me about the flood policy", isLoading := false,
    chatSessions := [], currentSessionId := none, editingSessionId := none,
    editingTitle := "", deleteDialogOpen := false, sessionToDelete := none }

/-- First send at Date.now() = 1000 (user message id "1000"). -/
def c4AfterFirstSend : UiState := reflectMessages (handleSendMessageStart 1000 none c4Start)

/-- The remote reply resolves at Date.now() = 2000, so the assistant message
gets id "2001". -/
def c4AfterReply : UiState :=
  reflectMessages (handleSendMessageSuccess 2000 ("The policy has three parts.") none c4AfterFirstSend)

/-- The next user message is sent one millisecond later, at Date.now() = 2001,
so it also gets id "2001". -/
def c4AfterSecondSend : UiState :=
  reflectMessages (handleSendMessageStart 2001 none { c4AfterReply with inputValue := "and the budget for it" })

/-- A state whose history is the single user message "hi". -/
def c3State : UiState :=
  { messages := [{ id := "1", role := Role.user, content := "hi",
                   timestamp := 0, sources := none }],
    inputValue := "", isLoading := false, chatSessions := [],
    currentSessionId := none, editingSessionId := none, editingTitle := "",
    deleteDialogOpen := false, sessionToDelete := none }

/-- A fresh state whose trimmed input exceeds thirty characters. -/
def c5State : UiState :=
  { messages := [], inputValue := " Tell me about the Digital Pakistan initiatives ",
    isLoading := false, chatSessions := [], currentSessionId := none,
    editingSessionId := none, editingTitle := "", deleteDialogOpen := false,
    sessionToDelete := none }

/-- A state with a remote call in flight. -/
def c7Busy : UiState :=
  { messages := [], inputValue := "pending question", isLoading := true,
    chatSessions := [], currentSessionId := none, editingSessionId := none,
    editingTitle := "", deleteDialogOpen := false, sessionToDelete := none }

/-- An idle state whose input trims to the empty string. -/
def c7Empty : UiState := { c7Busy with inputValue := "   ", isLoading := false }

/-- An idle state with a nonempty input. -/
def c7Fresh : UiState := { c7Busy with inputValue := "What is the flood policy", isLoading := false }

/-- Two stored sessions; the first is active. -/
def c8SessionA : ChatSession := { id := "100", title := "A", messages := [], createdAt := 0 }

/-- The second stored session. -/
def c8SessionB : ChatSession := { id := "200", title := "B", messages := [], createdAt := 0 }

/-- A state holding c8SessionA (active) and c8SessionB. -/
def c8State : UiState :=
  { messages := [], inputValue := "", isLoading := false,
    chatSessions := [c8SessionA, c8SessionB], currentSessionId := some "100",
    editingSessionId := none, editingTitle := "", deleteDialogOpen := false,
    sessionToDelete := none }

/-- c8State after the request-delete phase for session "100". -/
def c8Pending : UiState := handleDeleteSession ("100") c8State

/-- A session whose title is about to be renamed. -/
def c9Session : ChatSession :=
  { id := "1", title := "Old title",
    messages := [{ id := "1", role := Role.user, content := "keep me",
                   timestamp := 2, sources := none }],
    createdAt := 5 }

/-- A second session that the rename must not touch. -/
def c9Other : ChatSession := { id := "2", title := "Other", messages := [], createdAt := 6 }

/-- A state mid-edit of session "1" with a title that trims nonempty. -/
def c9State : UiState :=
  { messages := [], inputValue := "", isLoading := false,
    chatSessions := [c9Session, c9Other], currentSessionId := none,
    editingSessionId := some "1", editingTitle := "  New Name  ",
    deleteDialogOpen := false, sessionToDelete := none }

/-- The same state with a title that trims to the empty string. -/
def c9StateEmpty : UiState := { c9State with editingTitle := "   " }

/-- A state whose nonempty history contains only an assistant message. -/
def c10State : UiState :=
  { messages := [{ id := "9", role := Role.assistant,
                   content := "Welcome to the portal", timestamp := 0, sources := none }],
    inputValue := "", isLoading := false, chatSessions := [],
    currentSessionId := none, editingSessionId := none, editingTitle := "",
    deleteDialogOpen := false, sessionToDelete := none }

/-- A citation attached to the stored assistant reply below. -/
def c6Citation : Citation :=
  { id := "1", title := "PDMA Flood Advisory", url := "https://example.gov/advisory",
    snippet := "Flood preparedness guidance." }

/-- A concrete collection with citations and timestamps for the round-trip
witness. -/
def c6Sessions : List ChatSession :=
  [{ id := "1717171717171", title := "Flood planning",
     messages :=
       [{ id := "1717171717171", role := Role.user,
          content := "Tell me about flood policy", timestamp := 1717171717171, sources := none },
        { id := "1717171717999", role := Role.assistant,
          content := "Here is the policy detail.", timestamp := 1717171717998,
          sources := some [c6Citation] }],
     createdAt := 1717171717171 },
   { id := "1700000000000", title := "CNIC", messages := [], createdAt := 1700000000000 }]

/-! ## Correctness of the date codec -/

theorem civilDoe_lt (days : Nat) : civilDoe days < 146097 := by
  simp only [civilDoe]; omega

theorem civilYoe_le (days : Nat) : civilYoe days ≤ 399 := by
  have := civilDoe_lt days
  simp only [civilYoe]
  omega

set_option maxHeartbeats 8000000 in
/-- The Hinnant invariant: the year-of-era computed from a day-of-era starts at
or before that day, and at most 365 days before it (so the day-of-year is in
range). Proved by exhausting the 400 possible years of an era. -/
theorem civil_invariant (days : Nat) :
    365 * civilYoe days + civilYoe days / 4 - civilYoe days / 100 ≤ civilDoe days ∧
    civilDoe days - (365 * civilYoe days + civilYoe days / 4 - civilYoe days / 100) ≤ 365 := by
  have h1 := civilDoe_lt days
  have h2 := civilYoe_le days
  simp only [civilYoe] at h2 ⊢
  generalize hg : (civilDoe days - civilDoe days / 1460 + civilDoe days / 36524 - civilDoe days / 146096) / 365 = a at h2 ⊢
  generalize hd : civilDoe days = doe at h1 hg ⊢
  interval_cases a <;> omega

theorem civilDoy_le (days : Nat) : civilDoy days ≤ 365 := by
  have h := civil_invariant days
  simp only [civilDoy]; omega

theorem civilMp_le (days : Nat) : civilMp days ≤ 11 := by
  have := civilDoy_le days; simp only [civilMp]; omega

theorem doy_reconstruction (days : Nat) :
    (153 * (if 2 < civilMonth days then civilMonth days - 3 else civilMonth days + 9) + 2) / 5
      + civilDay days - 1 = civilDoy days := by
  have hmp := civilMp_le days
  have hmpdef : civilMp days = (5 * civilDoy days + 2) / 153 := rfl
  have hday : civilDay days = civilDoy days - (153 * civilMp days + 2) / 5 + 1 := rfl
  by_cases hc : civilMp days < 10
  · have hmon : civilMonth days = civilMp days + 3 := by
      simp only [civilMonth, if_pos hc]
    rw [hmon, if_pos (by omega : 2 < civilMp days + 3)]
    omega
  · have hmon : civilMonth days = civilMp days - 9 := by
      simp only [civilMonth, if_neg hc]
    rw [hmon, if_neg (by omega : ¬ 2 < civilMp days - 9)]
    omega

theorem shifted_year (days : Nat) :
    (if civilMonth days ≤ 2 then civilYear days - 1 else civilYear days)
      = civilYoe days + civilEra days * 400 := by
  by_cases hc : civilMp days < 10
  · have hmon : civilMonth days = civilMp days + 3 := by
      simp only [civilMonth, if_pos hc]
    have h2 : ¬ (civilMonth days ≤ 2) := by omega
    rw [if_neg h2]
    simp only [civilYear, if_neg h2]
  · have hmp := civilMp_le days
    have hmon : civilMonth days = civilMp days - 9 := by
      simp only [civilMonth, if_neg hc]
    have h2 : civilMonth days ≤ 2 := by omega
    rw [if_pos h2]
    simp only [civilYear, if_pos h2]
    omega

theorem days_roundtrip (days : Nat) (h : days < 2932897) :
    daysFromCivil (civilYear days) (civilMonth days) (civilDay days) = days := by
  have hyoe := civilYoe_le days
  have hinv := civil_invariant days
  have hsplit : days + 719468 = civilEra days * 146097 + civilDoe days := by
    simp only [civilEra, civilDoe]; omega
  have hdoydef : civilDoy days = civilDoe days - (365 * civilYoe days + civilYoe days / 4 - civilYoe days / 100) := rfl
  simp only [daysFromCivil]
  rw [shifted_year days, doy_reconstruction days]
  have hera2 : (civilYoe days + civilEra days * 400) / 400 = civilEra days := by omega
  rw [hera2]
  have hcol : civilYoe days + civilEra days * 400 - civilEra days * 400 = civilYoe days := by omega
  rw [hcol]
  omega

theorem civilYear_le (days : Nat) (h : days < 2932897) : civilYear days ≤ 9999 := by
  have hyoe := civilYoe_le days
  have hinv := civil_invariant days
  have hmple := civilMp_le days
  have hsplit : days + 719468 = civilEra days * 146097 + civilDoe days := by
    simp only [civilEra, civilDoe]; omega
  have hdoe_lt := civilDoe_lt days
  have hdoydef : civilDoy days = civilDoe days - (365 * civilYoe days + civilYoe days / 4 - civilYoe days / 100) := rfl
  have hmpdef : civilMp days = (5 * civilDoy days + 2) / 153 := rfl
  by_cases hc : civilMp days < 10
  · have h2 : ¬ (civilMonth days ≤ 2) := by
      simp only [civilMonth, if_pos hc]; omega
    simp only [civilYear, if_neg h2]
    omega
  · have h2 : civilMonth days ≤ 2 := by
      simp only [civilMonth, if_neg hc]; omega
    simp only [civilYear, if_pos h2]
    omega

theorem civilMonth_bounds (days : Nat) : 1 ≤ civilMonth days ∧ civilMonth days ≤ 12 := by
  have := civilMp_le days
  simp only [civilMonth]
  split <;> omega

theorem civilDay_bounds (days : Nat) : 1 ≤ civilDay days ∧ civilDay days ≤ 31 := by
  have hmp := civilMp_le days
  have hdoy := civilDoy_le days
  have hmpdef : civilMp days = (5 * civilDoy days + 2) / 153 := rfl
  simp only [civilDay]
  omega

theorem digVal_dig (n : Nat) : digVal (dig n) = n % 10 := by
  have h10 : ∀ k, k < 10 → digVal (dig k) = k := by decide
  have h : dig n = dig (n % 10) := by
    unfold dig; congr 1; omega
  rw [h, h10 (n % 10) (by omega)]

theorem parseISO_mk_spec (y mo d hh mi ss ms : Nat)
    (hy : y ≤ 9999) (hmo : mo ≤ 99) (hd : d ≤ 99) :
    parseISO (String.mk
      [dig (y / 1000), dig (y / 100), dig (y / 10), dig y, '-',
       dig (mo / 10), dig mo, '-', dig (d / 10), dig d, 'T',
       dig (hh / 10), dig hh, ':', dig (mi / 10), dig mi, ':',
       dig (ss / 10), dig ss, '.', dig (ms / 100), dig (ms / 10), dig ms, 'Z'])
      = daysFromCivil y mo d * 86400000 + (hh / 10 % 10 * 10 + hh % 10) * 3600000
        + (mi / 10 % 10 * 10 + mi % 10) * 60000 + (ss / 10 % 10 * 10 + ss % 10) * 1000
        + (ms / 100 % 10 * 100 + ms / 10 % 10 * 10 + ms % 10) := by
  simp only [parseISO, String.toList, parseISOChars, digVal_dig]
  have e1 : y / 1000 % 10 * 1000 + y / 100 % 10 * 100 + y / 10 % 10 * 10 + y % 10 = y := by omega
  have e2 : mo / 10 % 10 * 10 + mo % 10 = mo := by omega
  have e3 : d / 10 % 10 * 10 + d % 10 = d := by omega
  rw [e1, e2, e3]

theorem parse_toISO (t : Nat) (h : t < 253402300800000) : parseISO (toISOString t) = t := by
  have hdays : t / 86400000 < 2932897 := by omega
  have hy := civilYear_le (t / 86400000) hdays
  have hmo := civilMonth_bounds (t / 86400000)
  have hd := civilDay_bounds (t / 86400000)
  have hrt := days_roundtrip (t / 86400000) hdays
  simp only [toISOString]
  rw [parseISO_mk_spec _ _ _ _ _ _ _ hy (by omega) (by omega), hrt]
  omega

/-! ## Round-trip of the persisted collection -/

/-- Roles survive the serialize / reconstruct cycle. -/
theorem roleOfString_roleToString (r : Role) : roleOfString (roleToString r) = r := by
  cases r <;> rfl

/-- One message survives the persistence cycle when its timestamp is in the
four-digit-year range. -/
theorem deserialize_serialize_message (m : ChatMessage) (h : m.timestamp < 253402300800000) :
    deserializeMessage (serializeMessage m) = m := by
  simp only [serializeMessage, deserializeMessage, roleOfString_roleToString,
    parse_toISO m.timestamp h]

/-- One session survives the persistence cycle. -/
theorem deserialize_serialize_session (s : ChatSession)
    (h1 : s.createdAt < 253402300800000)
    (h2 : ∀ m ∈ s.messages, m.timestamp < 253402300800000) :
    deserializeSession (serializeSession s) = s := by
  simp only [serializeSession, deserializeSession, List.map_map, Function.comp_def,
    parse_toISO s.createdAt h1]
  have hmap : s.messages.map (fun m => deserializeMessage (serializeMessage m)) = s.messages := by
    rw [List.map_congr_left (fun m hm => deserialize_serialize_message m (h2 m hm))]
    exact List.map_id s.messages
  rw [hmap]

/-- Claim C6: serializing a session collection (citations and timestamps
included) and deserializing it back yields the original collection, the
timestamp fields being reconstructed as equivalent instants from their ISO
strings (stated for instants in the four-digit-year range of the serializer). -/
theorem c6_persistence_roundtrip (sessions : List ChatSession)
    (h : ∀ s ∈ sessions, s.createdAt < 253402300800000 ∧
          ∀ m ∈ s.messages, m.timestamp < 253402300800000) :
    deserializeSessions (serializeSessions sessions) = sessions := by
  simp only [deserializeSessions, serializeSessions, List.map_map, Function.comp_def]
  rw [List.map_congr_left (fun s hs => deserialize_serialize_session s (h s hs).1 (h s hs).2)]
  exact List.map_id sessions

/-- Witness for C6 at a concrete collection with citations and timestamps. -/
theorem c6_witness :
    deserializeSessions (serializeSessions c6Sessions) = c6Sessions :=
  c6_persistence_roundtrip c6Sessions (by decide)

/-! ## The Session Store claims -/

/-- Claim C1 (code bug): deleting the last remaining session empties the
in-memory collection, but the save effect skips its write on an empty
collection, so the stored serialization still holds the deleted session and
differs from the serialization of the in-memory (empty) collection. -/
theorem c1_empty_collection_stale_storage :
    (confirmDeleteSession c1State).chatSessions = [] ∧
    saveEffect (confirmDeleteSession c1State).chatSessions (some (serializeSessions c1State.chatSessions))
      = some (serializeSessions c1State.chatSessions) ∧
    some (serializeSessions c1State.chatSessions)
      ≠ some (serializeSessions (confirmDeleteSession c1State).chatSessions) := by
  decide

/-- Claim C4 (code bug): ids come from Date.now(), so the assistant reply that
resolves at t = 2000 gets id "2001" and the next user message sent at
t = 2001 gets the same id "2001"; the one stored session then holds two
messages with equal ids. -/
theorem c4_duplicate_message_ids :
    c4AfterSecondSend.chatSessions.map (fun s => s.messages.map (fun m => m.id))
      = [["1000", "2001", "2001"]] ∧
    ¬ ([("1000" : String), "2001", "2001"].Nodup) := by
  decide

/-- Claim C5: sending a first message with nonempty trimmed text while no
session is active creates exactly one new session — titled with the first 30
characters of the text plus an ellipsis exactly when the text is longer than
30 characters — inserts it at the front of the collection leaving the
existing sessions untouched, and makes it active. -/
theorem c5_session_creation (st : UiState) (now : Nat)
    (h1 : st.isLoading = false) (h2 : st.currentSessionId = none)
    (h3 : jsTrim st.inputValue ≠ "") :
    (handleSendMessageStart now none st).chatSessions =
      { id := natToString now,
        title := String.mk ((jsTrim st.inputValue).toList.take 30) ++
          (if 30 < (jsTrim st.inputValue).toList.length then "..." else ""),
        messages := [], createdAt := now } :: st.chatSessions ∧
    (handleSendMessageStart now none st).currentSessionId = some (natToString now) := by
  have hb : (jsTrim st.inputValue == "") = false := by
    simpa using h3
  simp [handleSendMessageStart, effectiveText, h1, h2, hb]

/-- Witness for C5 at a concrete fresh state whose trimmed input has 46
characters. -/
theorem c5_witness :
    (handleSendMessageStart 7 none c5State).chatSessions =
      { id := natToString 7,
        title := String.mk ((jsTrim c5State.inputValue).toList.take 30) ++
          (if 30 < (jsTrim c5State.inputValue).toList.length then "..." else ""),
        messages := [], createdAt := 7 } :: c5State.chatSessions ∧
    (handleSendMessageStart 7 none c5State).currentSessionId = some (natToString 7) :=
  c5_session_creation c5State 7 rfl rfl (by decide)

/-- Claim C7: a send issued while the busy flag is set is a no-op, a send
whose effective text (the trimmed input, as every call site passes no
explicit text) is empty is a no-op, and a send that actually starts leaves
the busy flag set so that a second send before resolution is a no-op. -/
theorem c7_no_concurrent_send :
    (∀ (st : UiState) (now : Nat) (mt : Option String),
        st.isLoading = true → handleSendMessageStart now mt st = st) ∧
    (∀ (st : UiState) (now : Nat),
        jsTrim st.inputValue = "" → handleSendMessageStart now none st = st) ∧
    (∀ (st : UiState) (now now2 : Nat) (mt mt2 : Option String),
        st.isLoading = true ∨ effectiveText mt st ≠ "" →
        handleSendMessageStart now2 mt2 (handleSendMessageStart now mt st)
          = handleSendMessageStart now mt st) := by
  have part1 : ∀ (st : UiState) (now : Nat) (mt : Option String),
      st.isLoading = true → handleSendMessageStart now mt st = st := by
    intro st now mt h
    simp [handleSendMessageStart, h]
  have part2 : ∀ (st : UiState) (now : Nat),
      jsTrim st.inputValue = "" → handleSendMessageStart now none st = st := by
    intro st now h
    simp [handleSendMessageStart, effectiveText, h]
  refine ⟨part1, part2, ?_⟩
  intro st now now2 mt mt2 h
  by_cases hb : st.isLoading
  · rw [part1 st now mt hb]
    exact part1 st now2 mt2 hb
  · rcases h with hbusy | htext
    · exact absurd hbusy hb
    · have hg : (effectiveText mt st == "") = false := by
        simpa using htext
      have hload : (handleSendMessageStart now mt st).isLoading = true := by
        simp [handleSendMessageStart, hg, hb]
      exact part1 _ now2 mt2 hload

/-- Witness for C7: a busy state, an empty-input state, and a double send. -/
theorem c7_witness :
    handleSendMessageStart 3 none c7Busy = c7Busy ∧
    handleSendMessageStart 4 none c7Empty = c7Empty ∧
    handleSendMessageStart 6 none (handleSendMessageStart 5 none c7Fresh)
      = handleSendMessageStart 5 none c7Fresh :=
  ⟨c7_no_concurrent_send.1 c7Busy 3 none rfl,
   c7_no_concurrent_send.2.1 c7Empty 4 (by decide),
   c7_no_concurrent_send.2.2 c7Fresh 5 6 none none (Or.inr (by decide))⟩

/-- Claim C8: the request phase of the two-phase delete never changes the
session collection (it only records the pending id and opens the dialog);
only the confirm phase removes the pending session, and when that session
was active the confirm phase also resets to the home state. -/
theorem c8_two_phase_delete :
    (∀ (st : UiState) (sid : String),
        (handleDeleteSession sid st).chatSessions = st.chatSessions ∧
        (handleDeleteSession sid st).sessionToDelete = some sid) ∧
    (∀ (st : UiState) (sid : String), st.sessionToDelete = some sid → sid ≠ "" →
        (confirmDeleteSession st).chatSessions
            = st.chatSessions.filter (fun session => session.id != sid) ∧
        (st.currentSessionId = some sid →
          (confirmDeleteSession st).messages = [] ∧
          (confirmDeleteSession st).currentSessionId = none)) := by
  constructor
  · intro st sid
    exact ⟨rfl, rfl⟩
  · intro st sid hpend hne
    have htr2 : optStringTruthy (some sid) = true := by
      simpa [optStringTruthy] using hne
    constructor
    · simp only [confirmDeleteSession, hpend, htr2, if_true, Option.getD_some]
      split <;> rfl
    · intro hcur
      simp [confirmDeleteSession, hpend, htr2, hcur]

/-- Witness for C8 at a concrete two-session state whose active session is
requested and then confirmed for deletion. -/
theorem c8_witness :
    (handleDeleteSession ("100") c8State).chatSessions = c8State.chatSessions ∧
    (handleDeleteSession ("100") c8State).sessionToDelete = some "100" ∧
    (confirmDeleteSession c8Pending).chatSessions
        = c8Pending.chatSessions.filter (fun session => session.id != "100") ∧
    (confirmDeleteSession c8Pending).messages = [] ∧
    (confirmDeleteSession c8Pending).currentSessionId = none :=
  ⟨(c8_two_phase_delete.1 c8State ("100")).1,
   (c8_two_phase_delete.1 c8State ("100")).2,
   (c8_two_phase_delete.2 c8Pending ("100") rfl (by decide)).1,
   ((c8_two_phase_delete.2 c8Pending ("100") rfl (by decide)).2 rfl).1,
   ((c8_two_phase_delete.2 c8Pending ("100") rfl (by decide)).2 rfl).2⟩

/-- Claim C9: when the edited title trims nonempty, saving replaces exactly
the target session's title with the trimmed title (id, messages and createdAt
spelled out unchanged) and maps every other session to itself; when it trims
empty, the session collection is left untouched. -/
theorem c9_rename :
    (∀ (st : UiState) (sid : String), jsTrim st.editingTitle ≠ "" →
        (handleSaveEdit sid st).chatSessions
          = st.chatSessions.map (fun session =>
              if session.id == sid then
                { id := session.id, title := jsTrim st.editingTitle,
                  messages := session.messages, createdAt := session.createdAt }
              else session)) ∧
    (∀ (st : UiState) (sid : String), jsTrim st.editingTitle = "" →
        (handleSaveEdit sid st).chatSessions = st.chatSessions) := by
  constructor
  · intro st sid h
    have hb : (jsTrim st.editingTitle != "") = true := by
      simpa using h
    simp [handleSaveEdit, hb]
  · intro st sid h
    simp [handleSaveEdit, h]

/-- Witness for C9 at a concrete two-session state, renaming session "1". -/
theorem c9_witness :
    (handleSaveEdit ("1") c9State).chatSessions
      = c9State.chatSessions.map (fun session =>
          if session.id == "1" then
            { id := session.id, title := jsTrim c9State.editingTitle,
              messages := session.messages, createdAt := session.createdAt }
          else session) ∧
    (handleSaveEdit ("1") c9StateEmpty).chatSessions = c9StateEmpty.chatSessions :=
  ⟨c9_rename.1 c9State ("1") (by decide), c9_rename.2 c9StateEmpty ("1") (by decide)⟩

/-! ## The Action Gate claims -/

/-- A history whose user messages consist of the single text "hi" is
classified as simple (insufficient) by the gate. -/
theorem isSimpleChat_single_hi (msgs : List ChatMessage)
    (h : (msgs.filter (fun m => m.role == Role.user)).map (fun m => m.content) = ["hi"]) :
    isSimpleChat msgs = true := by
  cases hf : msgs.filter (fun m => m.role == Role.user) with
  | nil =>
    rw [hf] at h
    simp at h
  | cons m t =>
    cases t with
    | nil =>
      rw [hf] at h
      simp at h
      have hne : msgs ≠ [] := by
        intro he
        rw [he] at hf
        simp at hf
      have h0 : (msgs.length == 0) = false := by
        cases msgs with
        | nil => exact absurd rfl hne
        | cons _ _ => rfl
      unfold isSimpleChat
      rw [hf, h0]
      simp only [Bool.false_eq_true, if_false, lastN]
      have hdrop : List.drop ([m].length - 3) [m] = [m] := rfl
      rw [hdrop]
      simp only [List.map_cons, List.map_nil]
      rw [h]
      decide
    | cons m2 t2 =>
      rw [hf] at h
      simp at h

/-- Claim C3: for any state whose user messages are exactly ["hi"], the
action gate answers insufficient — it appends the local template message and
issues no remote request — and the template names the action with its
underscore replaced by a space, for all three action values. -/
theorem c3_gate_insufficiency :
    (∀ (st : UiState) (now : Nat) (orig : String) (remote : Except Unit String),
      (st.messages.filter (fun m => m.role == Role.user)).map (fun m => m.content) = ["hi"] →
      handleActionResponse now ("feasibility") orig remote st =
        ({ st with
            messages := st.messages ++
              [{ id := natToString now, role := Role.assistant,
                 content := insufficientContent ("feasibility"), timestamp := now, sources := none }],
            isLoading := false }, none)) ∧
    strContains (insufficientContent ("feasibility")) ("feasibility") = true ∧
    strContains (insufficientContent ("case_study")) ("case study") = true ∧
    strContains (insufficientContent ("executive_report")) ("executive report") = true := by
  refine ⟨?_, by decide, by decide, by decide⟩
  intro st now orig remote h
  have hs : isSimpleChat st.messages = true := isSimpleChat_single_hi st.messages h
  simp [handleActionResponse, hs]

/-- Witness for C3 at the concrete "hi"-only state with a feasibility
request. -/
theorem c3_witness :
    handleActionResponse 5 ("feasibility") ("hi") (Except.ok ("x")) c3State =
      ({ c3State with
          messages := c3State.messages ++
            [{ id := natToString 5, role := Role.assistant,
               content := insufficientContent ("feasibility"), timestamp := 5, sources := none }],
          isLoading := false }, none) :=
  (c3_gate_insufficiency).1 c3State 5 ("hi") (Except.ok ("x")) (by decide)

/-- Claim C10: a nonempty history with no user-role messages is classified as
sufficient (hasSimpleContent is vacuously false over the empty selection), so
the action request is forwarded to the remote endpoint. -/
theorem c10_assistant_only_sufficient :
    ∀ (msgs : List ChatMessage), msgs ≠ [] →
      (∀ m ∈ msgs, m.role = Role.assistant) →
      isSimpleChat msgs = false ∧
      ∀ (st : UiState) (now : Nat) (action orig : String) (remote : Except Unit String),
        st.messages = msgs → (handleActionResponse now action orig remote st).2.isSome = true := by
  intro msgs hne hall
  have hfe : msgs.filter (fun m => m.role == Role.user) = [] := by
    rw [List.filter_eq_nil_iff]
    intro a ha
    have := hall a ha
    simp [this]
  have h0 : (msgs.length == 0) = false := by
    cases msgs with
    | nil => exact absurd rfl hne
    | cons _ _ => rfl
  have hsc : isSimpleChat msgs = false := by
    unfold isSimpleChat
    rw [hfe, h0]
    simp [lastN, hasSimpleContent]
  refine ⟨hsc, ?_⟩
  intro st now action orig remote hmsgs
  unfold handleActionResponse
  rw [hmsgs, hsc]
  cases remote <;> simp

/-- Witness for C10 at a state holding a single assistant message. -/
theorem c10_witness :
    isSimpleChat c10State.messages = false ∧
    (handleActionResponse 1 ("feasibility") ("q") (Except.ok ("r")) c10State).2.isSome = true :=
  ⟨(c10_assistant_only_sufficient c10State.messages (by decide) (by decide)).1,
   (c10_assistant_only_sufficient c10State.messages (by decide) (by decide)).2
     c10State 1 ("feasibility") ("q") (Except.ok ("r")) rfl⟩

/-- Claim C2 counterexample: on the history whose only user message is
"aa" newline "bb" (trimmed length 5), the claim's characterization says
insufficient but the gate says sufficient, because the JS short-message regex
dot does not match the newline. -/
theorem c2_counterexample :
    ¬ (isSimpleChat c2Example = true ↔ SpecInsufficient c2Example) := by
  unfold SpecInsufficient SpecSimpleClaim SpecGovernmentClaim SpecDetailClaim
  decide

/-- One simplePatterns test decomposed the way the claim words it, with the
line-terminator condition of the amended claim. -/
theorem simplePatternTest_iff (t : String) :
    simplePatternTest t = true ↔
      matchesGreetingPattern t = true ∨
      (1 ≤ t.toList.length ∧ t.toList.length ≤ 20 ∧
        ∀ c ∈ t.toList, isLineTerminator c = false) := by
  unfold simplePatternTest matchesGreetingPattern shortMessageTest
  simp only [Bool.or_eq_true, Bool.and_eq_true, decide_eq_true_eq, List.all_eq_true,
    Bool.not_eq_true']
  tauto

/-- The gate's hasSimpleContent agrees with the amended claim predicate. -/
theorem hasSimple_iff (msgs : List ChatMessage) :
    hasSimpleContent ((specSelectedUsers msgs).map (fun m => jsToLower m.content)) = true
      ↔ SpecSimpleAmended msgs := by
  unfold hasSimpleContent SpecSimpleAmended
  simp only [List.any_eq_true, List.mem_map]
  constructor
  · rintro ⟨x, ⟨m, hm, rfl⟩, hp⟩
    exact ⟨m, hm, (simplePatternTest_iff (jsTrim (jsToLower m.content))).mp hp⟩
  · rintro ⟨m, hm, hp⟩
    exact ⟨jsToLower m.content, ⟨m, hm, rfl⟩,
      (simplePatternTest_iff (jsTrim (jsToLower m.content))).mpr hp⟩

/-- The gate's hasGovernmentContent agrees with the claim predicate. -/
theorem hasGov_iff (msgs : List ChatMessage) :
    hasGovernmentContent ((specSelectedUsers msgs).map (fun m => jsToLower m.content)) = true
      ↔ SpecGovernmentClaim msgs := by
  unfold hasGovernmentContent SpecGovernmentClaim
  simp only [List.any_eq_true, List.mem_map]
  constructor
  · rintro ⟨x, ⟨m, hm, rfl⟩, hp⟩
    exact ⟨m, hm, hp⟩
  · rintro ⟨m, hm, k, hk, hp⟩
    exact ⟨jsToLower m.content, ⟨m, hm, rfl⟩, k, hk, hp⟩

/-- The gate's isDetailedRequest agrees with the claim predicate. -/
theorem detail_iff (msgs : List ChatMessage) :
    isDetailedRequest ((specSelectedUsers msgs).map (fun m => jsToLower m.content)) = true
      ↔ SpecDetailClaim msgs := by
  unfold isDetailedRequest SpecDetailClaim specJoinedText
  simp only [Bool.or_eq_true]
  tauto

/-- Claim C2 as amended: the gate classifies a history as insufficient
exactly when it is empty, or the amended hasSimpleContent holds over the last
three user messages while no domain keyword and no detail word occurs there;
assistant messages never influence the three component predicates. -/
theorem c2_gate_characterization (msgs : List ChatMessage) :
    isSimpleChat msgs = true ↔ SpecInsufficientAmended msgs := by
  by_cases h0 : msgs = []
  · subst h0
    unfold isSimpleChat SpecInsufficientAmended
    simp
  · have h0b : (msgs.length == 0) = false := by
      cases msgs with
      | nil => exact absurd rfl h0
      | cons _ _ => rfl
    unfold isSimpleChat
    rw [h0b]
    simp only [Bool.false_eq_true, if_false]
    have hsel : lastN 3 (msgs.filter (fun m => m.role == Role.user)) = specSelectedUsers msgs := rfl
    rw [hsel]
    simp only [Bool.and_eq_true, Bool.not_eq_true']
    unfold SpecInsufficientAmended
    constructor
    · rintro ⟨⟨hs, hg⟩, hd⟩
      refine Or.inr ⟨(hasSimple_iff msgs).mp hs, ?_, ?_⟩
      · intro hgov
        rw [(hasGov_iff msgs).mpr hgov] at hg
        simp at hg
      · intro hdet
        rw [(detail_iff msgs).mpr hdet] at hd
        simp at hd
    · rintro (he | ⟨hs, hg, hd⟩)
      · exact absurd he h0
      · refine ⟨⟨(hasSimple_iff msgs).mpr hs, ?_⟩, ?_⟩
        · cases hgb : hasGovernmentContent ((specSelectedUsers msgs).map (fun m => jsToLower m.content)) with
          | false => rfl
          | true => exact absurd ((hasGov_iff msgs).mp hgb) hg
        · cases hdb : isDetailedRequest ((specSelectedUsers msgs).map (fun m => jsToLower m.content)) with
          | false => rfl
          | true => exact absurd ((detail_iff msgs).mp hdb) hd


end GovBot
